import Mathlib

/-!
# Verification of the secure-vault well-being escalation core

Shallow embedding of the repository's entity store and the operations the
specification talks about: the well-being counter engine
(`updateUserWellBeing`, `incrementWellBeingCounter`,
`getUsersWithExceededLimits`), the settings routes, the two-phase
registration flow, and the per-user read accessors.

Sources embedded here:
* `src/shared/models.ts` (the `userSchema` / `wellBeingAlertSchema` halves
  used by `src/server/mongodb-storage.ts`),
* `src/server/mongodb-storage.ts` (class `MongoDBStorage`),
* `src/unnamed/part_000` (class `MongoStorage` and the Express route
  handlers: registration step1/step2, `/api/wellbeing/confirm`,
  `/api/wellbeing/settings` GET and PUT),
* the zod validation schemas shared by `src/server/routes-minimal.ts` and
  `src/unnamed/part_000`.

Document ids and timestamps are strings and naturals; JS numbers that the
code stores and compares are embedded as `Int` so that non-negativity is a
real statement rather than a typing artifact.
-/

namespace SecureVault

/-! ## Data model: documents of the MongoDB collections -/

/-- A `User` document as declared by `userSchema` in `src/shared/models.ts`
(the schema imported by `mongodb-storage.ts`).  `oid` is the Mongo `_id`,
`id` the application-level string id.  Fields the claims never touch
(names, addresses, provider data) are omitted. -/
structure UserDoc where
  oid : String
  id : String
  email : String
  mobileNumber : String
  passwordHash : Option String
  isActive : Bool
  lastWellBeingCheck : Option Nat
  wellBeingCounter : Int
  maxWellBeingLimit : Int
  alertFrequency : String
  customDays : Option Int
  alertTime : String
  enableSMS : Bool
  enableEmail : Bool
  escalationEnabled : Bool
  accountStatus : String
  deriving Repr, DecidableEq

/-- A `Nominee` document (`nomineeSchema`): owning user reference plus
identity fields. -/
structure NomineeDoc where
  oid : String
  userId : String
  fullName : String
  relationship : String
  mobileNumber : String
  email : Option String
  isVerified : Bool
  deriving Repr, DecidableEq

/-- An `Asset` document (`assetSchema`). -/
structure AssetDoc where
  oid : String
  userId : String
  assetType : String
  title : String
  value : Option String
  deriving Repr, DecidableEq

/-- A `MoodEntry` document (`moodEntrySchema`): append-only, queried
most-recent-first via `createdAt`. -/
structure MoodDoc where
  oid : String
  userId : String
  mood : String
  intensity : Int
  createdAt : Nat
  deriving Repr, DecidableEq

/-- A `WellBeingAlert` document as declared by `wellBeingAlertSchema` in the
`mongodb-schema` half of `src/shared/models.ts`: an alert row with a
resolution flag, the shape handled by `resolveWellBeingAlert`. -/
structure AlertDoc where
  oid : String
  userId : String
  alertType : String
  message : String
  isResolved : Bool
  resolvedAt : Option Nat
  deriving Repr, DecidableEq

/-- The persistent state seen by `MongoDBStorage`
(`src/server/mongodb-storage.ts`): one list per collection, in insertion
order (Mongo returns unsorted queries in that order). -/
structure Store where
  users : List UserDoc
  nominees : List NomineeDoc
  assets : List AssetDoc
  moodEntries : List MoodDoc
  alerts : List AlertDoc
  deriving Repr, DecidableEq

def emptyStore : Store := ⟨[], [], [], [], []⟩

/-! ## Generic list helpers mirroring Mongo update semantics -/

/-- `updateOne` / `findOneAndUpdate`: apply `f` to the first element
satisfying `p`, leave the rest untouched. -/
def updateFirst (p : α → Bool) (f : α → α) : List α → List α
  | [] => []
  | x :: xs => if p x then f x :: xs else x :: updateFirst p f xs

/-! ## MongoDBStorage operations (`src/server/mongodb-storage.ts`) -/

/-- `findOne({ id: userId })` on the users collection. -/
def findUser (userId : String) (s : Store) : Option UserDoc :=
  s.users.find? (fun u => u.id == userId)

/-- `updateUserWellBeing` (mongodb-storage.ts lines 172-180):
`updateOne({ id: userId }, { lastWellBeingCheck: new Date(), wellBeingCounter: 0 })`. -/
def updateUserWellBeing (userId : String) (now : Nat) (s : Store) : Store :=
  { s with users := (updateFirst (fun u => u.id == userId)
      (fun u => { u with lastWellBeingCheck := some now, wellBeingCounter := 0 })
      s.users) }

/-- `incrementWellBeingCounter` (lines 186-191):
`updateOne({ id: userId }, { $inc: { wellBeingCounter: 1 } })`. -/
def incrementWellBeingCounter (userId : String) (s : Store) : Store :=
  { s with users := (updateFirst (fun u => u.id == userId)
      (fun u => { u with wellBeingCounter := u.wellBeingCounter + 1 })
      s.users) }

/-- The settings document the PUT route passes to
`updateUserWellBeingSettings`: exactly the seven fields built in
`src/unnamed/part_000` lines 1171-1179 (note `maxMissedAlerts` is stored
under `maxWellBeingLimit`; `wellBeingCounter` is not among them). -/
structure SettingsDoc where
  alertFrequency : String
  customDays : Option Int
  alertTime : String
  enableSMS : Bool
  enableEmail : Bool
  maxWellBeingLimit : Int
  escalationEnabled : Bool
  deriving Repr, DecidableEq

/-- Applying a settings document to a user document: field-by-field `$set`. -/
def applySettings (d : SettingsDoc) (u : UserDoc) : UserDoc :=
  { u with
      alertFrequency := d.alertFrequency
      customDays := d.customDays
      alertTime := d.alertTime
      enableSMS := d.enableSMS
      enableEmail := d.enableEmail
      maxWellBeingLimit := d.maxWellBeingLimit
      escalationEnabled := d.escalationEnabled }

/-- `updateUserWellBeingSettings` (lines 182-184):
`updateOne({ id: userId }, settings)`. -/
def updateUserWellBeingSettings (userId : String) (d : SettingsDoc) (s : Store) : Store :=
  { s with users := updateFirst (fun u => u.id == userId) (applySettings d) s.users }

/-- `getUsersWithExceededLimits` (mongodb-storage.ts lines 193-198):
`find({ $expr: { $gte: ['$wellBeingCounter', '$maxWellBeingLimit'] } })`.
Note: the query compares only the two numeric fields. -/
def getUsersWithExceededLimits (s : Store) : List UserDoc :=
  s.users.filter (fun u => u.maxWellBeingLimit ≤ u.wellBeingCounter)

/-- Identity/contact data supplied at user creation. -/
structure CreateUserData where
  fullName : String
  dateOfBirth : String
  mobileNumber : String
  countryCode : String
  address : String
  email : String
  passwordHash : String
  deriving Repr, DecidableEq

/-- The document a `createUser` insert produces: the supplied identity
fields plus every `userSchema` default (`wellBeingCounter: 0`,
`maxWellBeingLimit: 15`, `alertFrequency: 'daily'`, `alertTime: '09:00'`,
`enableSMS/enableEmail/escalationEnabled: true`, `accountStatus: 'active'`).
`freshId` stands for the generated id. -/
def newUserDoc (freshId : String) (d : CreateUserData) : UserDoc :=
  { oid := freshId
    id := freshId
    email := d.email
    mobileNumber := d.mobileNumber
    passwordHash := some d.passwordHash
    isActive := true
    lastWellBeingCheck := none
    wellBeingCounter := 0
    maxWellBeingLimit := 15
    alertFrequency := "daily"
    customDays := none
    alertTime := "09:00"
    enableSMS := true
    enableEmail := true
    escalationEnabled := true
    accountStatus := "active" }

/-- `createUser`: inserts the new user document. -/
def createUser (freshId : String) (d : CreateUserData) (s : Store) : Store :=
  { s with users := s.users ++ [newUserDoc freshId d] }

/-- `resolveWellBeingAlert` (lines 408-413):
`findByIdAndUpdate(alertId, { isResolved: true, resolvedAt: new Date() })`. -/
def resolveWellBeingAlert (alertId : String) (now : Nat) (s : Store) : Store :=
  { s with alerts := (updateFirst (fun a => a.oid == alertId)
      (fun a => { a with isResolved := true, resolvedAt := some now })
      s.alerts) }

/-! ### Per-user read accessors (mongodb-storage.ts lines 270-288, 324-333,
361-370): each first resolves the user by its `id` field and returns an
empty result when no user matches, otherwise filters the collection by the
user's `_id`.  They are reads; the returned `Store` is the state after the
call. -/

/-- Insertion sort step for most-recent-first ordering
(`.sort({ createdAt: -1 })`). -/
def insertByCreatedAtDesc (m : MoodDoc) : List MoodDoc → List MoodDoc
  | [] => [m]
  | x :: xs =>
      if x.createdAt ≤ m.createdAt then m :: x :: xs
      else x :: insertByCreatedAtDesc m xs

def sortByCreatedAtDesc (l : List MoodDoc) : List MoodDoc :=
  l.foldr insertByCreatedAtDesc []

/-- `getUserNominees`: empty list when the user does not exist. -/
def getUserNominees (userId : String) (s : Store) : List NomineeDoc × Store :=
  match findUser userId s with
  | none => ([], s)
  | some u => (s.nominees.filter (fun n => n.userId == u.oid), s)

/-- `getUserAssets`: empty list when the user does not exist. -/
def getUserAssets (userId : String) (s : Store) : List AssetDoc × Store :=
  match findUser userId s with
  | none => ([], s)
  | some u => (s.assets.filter (fun a => a.userId == u.oid), s)

/-- `getUserMoodEntries`: empty list when the user does not exist, else the
user's entries most-recent-first. -/
def getUserMoodEntries (userId : String) (s : Store) : List MoodDoc × Store :=
  match findUser userId s with
  | none => ([], s)
  | some u => (sortByCreatedAtDesc (s.moodEntries.filter (fun m => m.userId == u.oid)), s)

/-- `getLatestMoodEntry`: `undefined` when the user does not exist, else
`findOne` sorted most-recent-first. -/
def getLatestMoodEntry (userId : String) (s : Store) : Option MoodDoc × Store :=
  match findUser userId s with
  | none => (none, s)
  | some u => ((sortByCreatedAtDesc (s.moodEntries.filter (fun m => m.userId == u.oid))).head?, s)

/-! ## Validation: `wellBeingSettingsSchema`
(zod schema, identical in `src/unnamed/part_000` lines 462-470 and
`src/server/routes-minimal.ts` lines 30-38). -/

/-- The request body of `PUT /api/wellbeing/settings`. -/
structure SettingsRequest where
  alertFrequency : String
  customDays : Option Int
  alertTime : String
  enableSMS : Bool
  enableEmail : Bool
  maxMissedAlerts : Int
  escalationEnabled : Bool
  deriving Repr, DecidableEq

/-- `z.enum(["daily", "weekly", "custom"])`. -/
def validFrequency (f : String) : Bool :=
  f == "daily" || f == "weekly" || f == "custom"

/-- `wellBeingSettingsSchema.parse` succeeds iff: the frequency is one of the
three enum values, `customDays` — an optional field with no cross-field
requirement — is in [1,30] whenever present, and `maxMissedAlerts` is in
[1,50]. -/
def wellBeingSettingsValid (r : SettingsRequest) : Bool :=
  validFrequency r.alertFrequency
    && (match r.customDays with
        | none => true
        | some d => decide (1 ≤ d) && decide (d ≤ 30))
    && (decide (1 ≤ r.maxMissedAlerts) && decide (r.maxMissedAlerts ≤ 50))

/-! ## Well-being route handlers (`src/unnamed/part_000`) -/

/-- HTTP outcome of the settings PUT route. -/
inductive PutSettingsResult where
  | ok
  | badRequest
  deriving Repr, DecidableEq

/-- `PUT /api/wellbeing/settings` (part_000 lines 1166-1185): parse the body
with `wellBeingSettingsSchema`; on success store the seven settings fields
(`maxMissedAlerts` persisted as `maxWellBeingLimit`); a parse failure is a
400 response issued before any storage call. -/
def putWellBeingSettings (userId : String) (body : SettingsRequest) (s : Store) :
    PutSettingsResult × Store :=
  if wellBeingSettingsValid body then
    (PutSettingsResult.ok,
      updateUserWellBeingSettings userId
        { alertFrequency := body.alertFrequency
          customDays := body.customDays
          alertTime := body.alertTime
          enableSMS := body.enableSMS
          enableEmail := body.enableEmail
          maxWellBeingLimit := body.maxMissedAlerts
          escalationEnabled := body.escalationEnabled } s)
  else (PutSettingsResult.badRequest, s)

/-- The settings view assembled by `GET /api/wellbeing/settings`. -/
structure SettingsView where
  alertFrequency : String
  customDays : Int
  alertTime : String
  enableSMS : Bool
  enableEmail : Bool
  maxMissedAlerts : Int
  escalationEnabled : Bool
  deriving Repr, DecidableEq

/-- JS `x || d` on a string field: falls back on the empty string. -/
def jsOrString (x d : String) : String := if x == "" then d else x

/-- JS `x || d` on an optional numeric field: falls back on `undefined` and
on `0`. -/
def jsOrOptNum (x : Option Int) (d : Int) : Int :=
  match x with
  | none => d
  | some v => if v == 0 then d else v

/-- JS `x || d` on a required numeric field: falls back on `0`. -/
def jsOrNum (x d : Int) : Int := if x == 0 then d else x

/-- `GET /api/wellbeing/settings` (part_000 lines 1133-1164): 404 (`none`)
when the user is missing, else the user's stored settings with the route's
`||` defaults (`user.maxWellBeingLimit || 15` etc.; the `!== false` guards
on the boolean flags are the flags themselves). -/
def getWellBeingSettings (userId : String) (s : Store) : Option SettingsView :=
  (findUser userId s).map (fun u =>
    { alertFrequency := jsOrString u.alertFrequency "daily"
      customDays := jsOrOptNum u.customDays 1
      alertTime := jsOrString u.alertTime "09:00"
      enableSMS := u.enableSMS
      enableEmail := u.enableEmail
      maxMissedAlerts := jsOrNum u.maxWellBeingLimit 15
      escalationEnabled := u.escalationEnabled })

/-- `POST /api/wellbeing/confirm` (part_000 lines 1113-1130): the check-in.
The handler makes exactly one storage call,
`updateUserWellBeing(userId, { lastWellBeingCheck: new Date(), wellBeingCounter: 0 })`;
no alert collection is touched (`resolveWellBeingAlert` has no caller on
this path). -/
def confirmWellBeing (userId : String) (now : Nat) (s : Store) : Store :=
  updateUserWellBeing userId now s

/-! ## Two-phase registration (`src/unnamed/part_000` lines 397-706) -/

/-- Body of `POST /api/register/step1` (`registrationStep1Schema`). -/
structure Step1Data where
  fullName : String
  dateOfBirth : String
  mobileNumber : String
  countryCode : String
  address : String
  deriving Repr, DecidableEq

/-- `registrationStep1Schema.parse`: `fullName` at least 2 characters,
`mobileNumber` at least 10, `address` at least 10. -/
def step1Valid (d : Step1Data) : Bool :=
  decide (2 ≤ d.fullName.length)
    && decide (10 ≤ d.mobileNumber.length)
    && decide (10 ≤ d.address.length)

/-- Body of `POST /api/register/step2` (`registrationStep2Schema`):
`z.string().email()` is embedded as presence of an `@`, `min(8)` on the
password as a length bound. -/
structure Step2Data where
  email : String
  password : String
  deriving Repr, DecidableEq

def step2Valid (d : Step2Data) : Bool :=
  d.email.data.any (fun c => c == '@') && decide (8 ≤ d.password.length)

/-- Server-process state: the store plus the in-memory
`registrationTempData` map (part_000 lines 410-421).  Registration entries
carry only `step1Data` — no expiry field; `otpExpiry` exists solely for the
OTP-login entries, which are a different key space (`otp_...`). -/
structure ServerState where
  store : Store
  registrationTempData : List (String × Step1Data)
  deriving Repr, DecidableEq

/-- `Map.set`: replace the binding if the key exists, else add it. -/
def setEntry (k : String) (v : Step1Data) : List (String × Step1Data) → List (String × Step1Data)
  | [] => [(k, v)]
  | (k0, v0) :: rest =>
      if k0 == k then (k, v) :: rest else (k0, v0) :: setEntry k v rest

/-- `Map.get`. -/
def lookupTemp (k : String) (st : ServerState) : Option Step1Data :=
  (st.registrationTempData.find? (fun e => e.fst == k)).map Prod.snd

/-- `Map.delete`. -/
def deleteEntry (k : String) (l : List (String × Step1Data)) : List (String × Step1Data) :=
  l.filter (fun e => e.fst != k)

/-- HTTP outcomes of the registration routes. -/
inductive RegResponse where
  | step1Ok (tempId : String)
  | registered (userId : String)
  | invalidData
  | mobileAlreadyRegistered
  | emailAlreadyRegistered
  | step1MissingOrExpired
  deriving Repr, DecidableEq

/-- `POST /api/register/step1` (part_000 lines 613-650): parse; reject with
"Mobile number already registered" when `getUserByMobile` finds a user
(before any write); else store the step-1 data in `registrationTempData`
under `mobileNumber + '_' + Date.now()` and return the temp id. -/
def registerStep1 (d : Step1Data) (now : Nat) (st : ServerState) : RegResponse × ServerState :=
  if !step1Valid d then (RegResponse.invalidData, st)
  else if st.store.users.any (fun u => u.mobileNumber == d.mobileNumber) then
    (RegResponse.mobileAlreadyRegistered, st)
  else
    let tempId := d.mobileNumber ++ "_" ++ toString now
    (RegResponse.step1Ok tempId,
      { st with registrationTempData := setEntry tempId d st.registrationTempData })

/-- `POST /api/register/step2` (part_000 lines 652-706): parse; look the
temp id up in `registrationTempData` (the lookup is by presence only — the
handler never reads the clock, so `now` is unused); reject with "Email
already registered" when `getUserByEmail` finds a user (before any write);
else create the user and delete the temp entry.  `freshId` stands for the
generated user id. -/
def registerStep2 (tempId : String) (d : Step2Data) (freshId : String) (now : Nat)
    (st : ServerState) : RegResponse × ServerState :=
  if !step2Valid d then (RegResponse.invalidData, st)
  else
    match lookupTemp tempId st with
    | none => (RegResponse.step1MissingOrExpired, st)
    | some s1 =>
        if st.store.users.any (fun u => u.email == d.email) then
          (RegResponse.emailAlreadyRegistered, st)
        else
          let created := createUser freshId
            { fullName := s1.fullName
              dateOfBirth := s1.dateOfBirth
              mobileNumber := s1.mobileNumber
              countryCode := s1.countryCode
              address := s1.address
              email := d.email
              passwordHash := d.password } st.store
          let _ := now
          (RegResponse.registered freshId,
            { store := created
              registrationTempData := deleteEntry tempId st.registrationTempData })

/-! ## The `MongoStorage` implementation (`src/unnamed/part_000` lines
131-387): users keyed by `_id`, well-being data in a separate
`WellBeingAlert` collection (the first schema half of
`src/shared/models.ts`), and `"admin"` short-circuits on the per-user
queries. -/

/-- `IWellBeingAlert` (models.ts lines 58-72): settings record plus the
missed-count. -/
structure MAlert where
  userId : String
  alertFrequency : String
  customDays : Option Int
  alertTime : String
  enableSMS : Bool
  enableEmail : Bool
  maxMissedAlerts : Int
  escalationEnabled : Bool
  currentCount : Int
  isActive : Bool
  deriving Repr, DecidableEq

/-- A user document as handled by `MongoStorage` (keyed by Mongo `_id`). -/
structure MUser where
  oid : String
  fullName : String
  email : String
  mobileNumber : String
  deriving Repr, DecidableEq

structure MNominee where
  oid : String
  userId : String
  fullName : String
  deriving Repr, DecidableEq

structure MAsset where
  oid : String
  userId : String
  title : String
  deriving Repr, DecidableEq

structure MMood where
  oid : String
  userId : String
  mood : String
  createdAt : Nat
  deriving Repr, DecidableEq

/-- The collections seen by `MongoStorage`. -/
structure MState where
  users : List MUser
  alerts : List MAlert
  nominees : List MNominee
  assets : List MAsset
  moodEntries : List MMood
  deriving Repr, DecidableEq

namespace MongoStorage

/-- `getUsersWithExceededLimits` (part_000 lines 302-313): find the alerts
with `currentCount >= maxMissedAlerts`, collect their user ids, and return
the users with those `_id`s.  Only the two counters are compared. -/
def getUsersWithExceededLimits (s : MState) : List MUser :=
  let exceededAlerts := s.alerts.filter (fun a => a.maxMissedAlerts ≤ a.currentCount)
  let userIds := exceededAlerts.map (fun a => a.userId)
  s.users.filter (fun u => userIds.contains u.oid)

/-- `getNomineesByUserId` (lines 179-185): `"admin"` short-circuits to `[]`. -/
def getNomineesByUserId (userId : String) (s : MState) : List MNominee :=
  if userId == "admin" then []
  else s.nominees.filter (fun n => n.userId == userId)

/-- `getAssetsByUserId` (lines 207-213): `"admin"` short-circuits to `[]`. -/
def getAssetsByUserId (userId : String) (s : MState) : List MAsset :=
  if userId == "admin" then []
  else s.assets.filter (fun a => a.userId == userId)

/-- `getUserMoodEntries` (lines 249-255): `"admin"` short-circuits to `[]`. -/
def getUserMoodEntries (userId : String) (s : MState) : List MMood :=
  if userId == "admin" then []
  else s.moodEntries.filter (fun m => m.userId == userId)

/-- `getWellBeingAlerts` (lines 282-289): `"admin"` short-circuits to `[]`;
otherwise filter by user when a user id is given, else return everything. -/
def getWellBeingAlerts (userId : Option String) (s : MState) : List MAlert :=
  if userId == some "admin" then []
  else
    match userId with
    | some uid => s.alerts.filter (fun a => a.userId == uid)
    | none => s.alerts

end MongoStorage

/-! ## Operation semantics for the counter invariant

The exposed operations that write user documents, as enumerated by the
spec: user creation, the missed-alert increment, the check-in, and the
settings update (through the PUT route, validation included). -/

inductive Op where
  | create (freshId : String) (d : CreateUserData)
  | incrementMissed (userId : String)
  | checkIn (userId : String) (now : Nat)
  | settingsUpdate (userId : String) (body : SettingsRequest)
  deriving Repr, DecidableEq

def stepOp : Op → Store → Store
  | Op.create freshId d, s => createUser freshId d s
  | Op.incrementMissed userId, s => incrementWellBeingCounter userId s
  | Op.checkIn userId now, s => confirmWellBeing userId now s
  | Op.settingsUpdate userId body, s => (putWellBeingSettings userId body s).2

def runOps : List Op → Store → Store
  | [], s => s
  | op :: ops, s => runOps ops (stepOp op s)

/-- Every stored counter is non-negative. -/
def StoreNonneg (s : Store) : Prop :=
  ∀ u ∈ s.users, 0 ≤ u.wellBeingCounter

/-- The missed counter of the user a `findOne({ id: userId })` resolves. -/
def counterOf (s : Store) (userId : String) : Option Int :=
  (findUser userId s).map (fun u => u.wellBeingCounter)

/-- The last-check-in timestamp of the resolved user. -/
def lastCheckOf (s : Store) (userId : String) : Option (Option Nat) :=
  (findUser userId s).map (fun u => u.lastWellBeingCheck)

/-! ## Helper lemmas about `updateFirst` and `find?` -/

theorem mem_updateFirst {p : α → Bool} {f : α → α} {l : List α} {x : α}
    (hx : x ∈ updateFirst p f l) : x ∈ l ∨ ∃ y ∈ l, x = f y := by
  induction l with
  | nil => simp [updateFirst] at hx
  | cons a t ih =>
      by_cases h : p a
      · simp only [updateFirst, h, if_true] at hx
        rcases List.mem_cons.mp hx with h1 | h2
        · exact Or.inr ⟨a, List.mem_cons_self a t, h1⟩
        · exact Or.inl (List.mem_cons_of_mem a h2)
      · simp only [updateFirst, h, if_false] at hx
        rcases List.mem_cons.mp hx with h1 | h2
        · exact Or.inl (h1 ▸ List.mem_cons_self a t)
        · rcases ih h2 with h3 | ⟨y, hy, hxy⟩
          · exact Or.inl (List.mem_cons_of_mem a h3)
          · exact Or.inr ⟨y, List.mem_cons_of_mem a hy, hxy⟩

theorem updateFirst_cons_pos {p : α → Bool} {f : α → α} {a : α} {t : List α}
    (h : p a = true) : updateFirst p f (a :: t) = f a :: t := by
  simp [updateFirst, h]

theorem updateFirst_cons_neg {p : α → Bool} {f : α → α} {a : α} {t : List α}
    (h : ¬ p a = true) : updateFirst p f (a :: t) = a :: updateFirst p f t := by
  simp [updateFirst, h]

/-- Updating the first `p`-element relocates `find? p` through `f`. -/
theorem find?_updateFirst_self {p : α → Bool} {f : α → α}
    (hf : ∀ x, p (f x) = p x) (l : List α) :
    (updateFirst p f l).find? p = (l.find? p).map f := by
  induction l with
  | nil => simp [updateFirst]
  | cons a t ih =>
      by_cases h : p a
      · rw [updateFirst_cons_pos h, List.find?_cons_of_pos _ ((hf a).symm ▸ h),
          List.find?_cons_of_pos _ h]
        rfl
      · rw [updateFirst_cons_neg h, List.find?_cons_of_neg _ h, List.find?_cons_of_neg _ h]
        exact ih

/-- Updating the first `q`-element leaves `find? p` unchanged when no
element satisfies both predicates and `f` preserves `p`. -/
theorem find?_updateFirst_other {p q : α → Bool} {f : α → α}
    (hpq : ∀ x, q x = true → p x = false) (hf : ∀ x, p (f x) = p x) (l : List α) :
    (updateFirst q f l).find? p = l.find? p := by
  induction l with
  | nil => rfl
  | cons a t ih =>
      by_cases h : q a
      · rw [updateFirst_cons_pos h, List.find?_cons_of_neg _ (by simp [hf a, hpq a h]),
          List.find?_cons_of_neg _ (by simp [hpq a h])]
      · rw [updateFirst_cons_neg h]
        by_cases hp : p a
        · rw [List.find?_cons_of_pos _ hp, List.find?_cons_of_pos _ hp]
        · rw [List.find?_cons_of_neg _ hp, List.find?_cons_of_neg _ hp]
          exact ih

/-- Two successive first-match updates with the same predicate compose. -/
theorem updateFirst_updateFirst {p : α → Bool} {f g : α → α}
    (hg : ∀ x, p (g x) = p x) (l : List α) :
    updateFirst p f (updateFirst p g l) = updateFirst p (fun x => f (g x)) l := by
  induction l with
  | nil => rfl
  | cons a t ih =>
      by_cases h : p a
      · rw [updateFirst_cons_pos h, updateFirst_cons_pos h,
          updateFirst_cons_pos ((hg a).symm ▸ h)]
      · rw [updateFirst_cons_neg h, updateFirst_cons_neg h, updateFirst_cons_neg h, ih]

/-- Under distinct user ids, any member of the updated list that carries the
updated id is the image of the element `find?` designates. -/
theorem updateFirst_mem_of_id {l : List UserDoc} {userId : String} {g : UserDoc → UserDoc}
    (hnd : (l.map UserDoc.id).Nodup)
    {x : UserDoc} (hx : x ∈ updateFirst (fun y => y.id == userId) g l)
    (hxid : x.id = userId) :
    ∃ y, l.find? (fun y => y.id == userId) = some y ∧ x = g y := by
  induction l with
  | nil => simp [updateFirst] at hx
  | cons a t ih =>
      simp only [List.map_cons, List.nodup_cons] at hnd
      by_cases h : a.id == userId
      · rw [@updateFirst_cons_pos UserDoc (fun y => y.id == userId) g a t h] at hx
        refine ⟨a, List.find?_cons_of_pos _ h, ?_⟩
        rcases List.mem_cons.mp hx with h1 | h2
        · exact h1
        · exfalso
          apply hnd.1
          have hmem : x.id ∈ t.map UserDoc.id := List.mem_map_of_mem UserDoc.id h2
          have haid : a.id = userId := by simpa using h
          rwa [hxid, ← haid] at hmem
      · rw [@updateFirst_cons_neg UserDoc (fun y => y.id == userId) g a t h] at hx
        rcases List.mem_cons.mp hx with h1 | h2
        · exact absurd (show a.id = userId from h1 ▸ hxid) (by simpa using h)
        · rcases ih hnd.2 h2 with ⟨y, hy1, hy2⟩
          have hfc : List.find? (fun y => y.id == userId) (a :: t) =
              List.find? (fun y => y.id == userId) t := List.find?_cons_of_neg _ h
          exact ⟨y, hfc.trans hy1, hy2⟩

/-! ## C1: membership in `getUsersWithExceededLimits` -/

/-- A user whose numeric condition holds but whose escalation is disabled. -/
def c1User : UserDoc :=
  { oid := "u1", id := "u1", email := "one@example.com", mobileNumber := "9000000001"
    passwordHash := some "h1", isActive := true, lastWellBeingCheck := none
    wellBeingCounter := 20, maxWellBeingLimit := 15
    alertFrequency := "daily", customDays := none, alertTime := "09:00"
    enableSMS := true, enableEmail := true, escalationEnabled := false
    accountStatus := "active" }

def c1Store : Store := { emptyStore with users := [c1User] }

/-- C1 counterexample: a user with `wellBeingCounter = 20 ≥ maxWellBeingLimit = 15`
but `escalationEnabled = false` nevertheless appears in
`getUsersWithExceededLimits` — the query compares only the two counters, so
the claimed escalation gate does not exist. -/
theorem exceeded_includes_escalation_disabled_user :
    c1User.escalationEnabled = false
    ∧ c1User.maxWellBeingLimit ≤ c1User.wellBeingCounter
    ∧ c1User ∈ getUsersWithExceededLimits c1Store := by
  refine ⟨rfl, by norm_num [c1User], ?_⟩
  simp [getUsersWithExceededLimits, c1Store, c1User, emptyStore]

/-- C1 (amended): in both implementations a user appears in
`getUsersWithExceededLimits` exactly when the numeric condition
`counter ≥ limit` holds (for `MongoDBStorage` on the user's own fields, for
`MongoStorage` on some alert row carrying the user's id);
`escalationEnabled` is not consulted. -/
theorem mem_exceeded_iff_counter_ge_limit :
    (∀ (s : Store) (u : UserDoc),
      u ∈ getUsersWithExceededLimits s ↔
        u ∈ s.users ∧ u.maxWellBeingLimit ≤ u.wellBeingCounter)
    ∧ (∀ (s : MState) (u : MUser),
      u ∈ MongoStorage.getUsersWithExceededLimits s ↔
        u ∈ s.users ∧ ∃ a ∈ s.alerts, a.maxMissedAlerts ≤ a.currentCount ∧ a.userId = u.oid) := by
  constructor
  · intro s u
    simp [getUsersWithExceededLimits, List.mem_filter]
  · intro s u
    simp only [MongoStorage.getUsersWithExceededLimits, List.mem_filter,
      List.contains, List.elem_iff, List.mem_map, decide_eq_true_eq]
    constructor
    · rintro ⟨hu, a, ⟨ha1, ha2⟩, hid⟩
      exact ⟨hu, a, ha1, ha2, hid⟩
    · rintro ⟨hu, a, ha, hcond, hid⟩
      exact ⟨hu, a, ⟨ha, hcond⟩, hid⟩

/-! ## C2: the counter is non-negative and only the check-in decreases it -/

/-- `p`-exclusion for two distinct user ids. -/
theorem id_pred_exclusive {t u : String} (htu : ¬ t = u) :
    ∀ x : UserDoc, (x.id == t) = true → (x.id == u) = false := by
  intro x hx
  have : x.id = t := by simpa using hx
  simp [this, htu]

/-! Behaviour of `findUser` across each write operation. -/

theorem findUser_updateUserWellBeing_self (uid : String) (now : Nat) (s : Store) :
    findUser uid (updateUserWellBeing uid now s)
      = (findUser uid s).map
          (fun u => { u with lastWellBeingCheck := some now, wellBeingCounter := 0 }) :=
  @find?_updateFirst_self UserDoc (fun x => x.id == uid)
    (fun u => { u with lastWellBeingCheck := some now, wellBeingCounter := 0 })
    (fun _ => rfl) s.users

theorem findUser_updateUserWellBeing_other {t uid : String} (h : ¬ t = uid)
    (now : Nat) (s : Store) :
    findUser uid (updateUserWellBeing t now s) = findUser uid s :=
  @find?_updateFirst_other UserDoc (fun x => x.id == uid) (fun x => x.id == t)
    (fun u => { u with lastWellBeingCheck := some now, wellBeingCounter := 0 })
    (id_pred_exclusive h) (fun _ => rfl) s.users

theorem findUser_incrementWellBeingCounter_self (uid : String) (s : Store) :
    findUser uid (incrementWellBeingCounter uid s)
      = (findUser uid s).map (fun u => { u with wellBeingCounter := u.wellBeingCounter + 1 }) :=
  @find?_updateFirst_self UserDoc (fun x => x.id == uid)
    (fun u => { u with wellBeingCounter := u.wellBeingCounter + 1 })
    (fun _ => rfl) s.users

theorem findUser_incrementWellBeingCounter_other {t uid : String} (h : ¬ t = uid) (s : Store) :
    findUser uid (incrementWellBeingCounter t s) = findUser uid s :=
  @find?_updateFirst_other UserDoc (fun x => x.id == uid) (fun x => x.id == t)
    (fun u => { u with wellBeingCounter := u.wellBeingCounter + 1 })
    (id_pred_exclusive h) (fun _ => rfl) s.users

theorem findUser_updateUserWellBeingSettings_self (uid : String) (d : SettingsDoc) (s : Store) :
    findUser uid (updateUserWellBeingSettings uid d s)
      = (findUser uid s).map (applySettings d) :=
  @find?_updateFirst_self UserDoc (fun x => x.id == uid) (applySettings d)
    (fun _ => rfl) s.users

theorem findUser_updateUserWellBeingSettings_other {t uid : String} (h : ¬ t = uid)
    (d : SettingsDoc) (s : Store) :
    findUser uid (updateUserWellBeingSettings t d s) = findUser uid s :=
  @find?_updateFirst_other UserDoc (fun x => x.id == uid) (fun x => x.id == t)
    (applySettings d) (id_pred_exclusive h) (fun _ => rfl) s.users

theorem findUser_createUser_of_found {uid : String} {s : Store} {u : UserDoc}
    (h : findUser uid s = some u) (freshId : String) (d : CreateUserData) :
    findUser uid (createUser freshId d s) = some u := by
  have h0 : s.users.find? (fun x => x.id == uid) = some u := h
  show (s.users ++ [newUserDoc freshId d]).find? (fun x => x.id == uid) = some u
  rw [List.find?_append, h0]
  rfl

theorem stepOp_preserves_nonneg {s : Store} (h : StoreNonneg s) (op : Op) :
    StoreNonneg (stepOp op s) := by
  cases op with
  | create freshId d =>
      intro u hu
      rcases List.mem_append.mp hu with h1 | h2
      · exact h u h1
      · rw [List.mem_singleton] at h2
        subst h2
        exact le_refl 0
  | incrementMissed userId =>
      intro u hu
      rcases mem_updateFirst hu with h1 | ⟨y, hy, huy⟩
      · exact h u h1
      · subst huy
        have hy0 := h y hy
        show (0 : Int) ≤ y.wellBeingCounter + 1
        omega
  | checkIn userId now =>
      intro u hu
      rcases mem_updateFirst hu with h1 | ⟨y, hy, huy⟩
      · exact h u h1
      · subst huy
        exact le_refl 0
  | settingsUpdate userId body =>
      by_cases hv : wellBeingSettingsValid body
      · simp only [stepOp, putWellBeingSettings, hv, if_true]
        intro u hu
        rcases mem_updateFirst hu with h1 | ⟨y, hy, huy⟩
        · exact h u h1
        · subst huy
          exact h y hy
      · simpa only [stepOp, putWellBeingSettings, hv, if_false] using h

theorem runOps_preserves_nonneg {s : Store} (h : StoreNonneg s) (ops : List Op) :
    StoreNonneg (runOps ops s) := by
  induction ops generalizing s with
  | nil => exact h
  | cons op rest ih => exact ih (stepOp_preserves_nonneg h op)

/-- C2: starting from the empty store, every sequence of exposed operations
(creation, missed-alert increment, check-in, settings update) keeps every
stored `wellBeingCounter` non-negative; and whenever a single operation
strictly decreases the counter that `findOne` resolves for some user id,
that operation is the check-in on that id and the new value is exactly 0. -/
theorem wellBeingCounter_nonneg_and_only_checkin_decreases :
    (∀ ops : List Op, StoreNonneg (runOps ops emptyStore))
    ∧ (∀ (op : Op) (s : Store) (userId : String) (c c' : Int),
        counterOf s userId = some c → counterOf (stepOp op s) userId = some c' →
        c' < c → ∃ t, op = Op.checkIn userId t ∧ c' = 0) := by
  constructor
  · intro ops
    exact runOps_preserves_nonneg (by intro u hu; simp [emptyStore] at hu) ops
  · intro op s userId c c' hc hc' hlt
    rcases Option.map_eq_some'.mp hc with ⟨u, hu, huc⟩
    cases op with
    | create freshId d =>
        exfalso
        have heq : counterOf (stepOp (Op.create freshId d) s) userId = some c := by
          simp only [stepOp, counterOf, findUser_createUser_of_found hu,
            Option.map_some', huc]
        rw [heq] at hc'
        injection hc' with h0
        omega
    | incrementMissed t =>
        exfalso
        by_cases htu : t = userId
        · subst htu
          have heq : counterOf (stepOp (Op.incrementMissed t) s) t = some (c + 1) := by
            simp only [stepOp, counterOf, findUser_incrementWellBeingCounter_self, hu,
              Option.map_some', huc]
          rw [heq] at hc'
          injection hc' with h0
          omega
        · have heq : counterOf (stepOp (Op.incrementMissed t) s) userId = some c := by
            simp only [stepOp, counterOf, findUser_incrementWellBeingCounter_other htu, hu,
              Option.map_some', huc]
          rw [heq] at hc'
          injection hc' with h0
          omega
    | checkIn t now =>
        by_cases htu : t = userId
        · subst htu
          refine ⟨now, rfl, ?_⟩
          have heq : counterOf (stepOp (Op.checkIn t now) s) t = some 0 := by
            simp only [stepOp, confirmWellBeing, counterOf,
              findUser_updateUserWellBeing_self, hu, Option.map_some']
          rw [heq] at hc'
          injection hc' with h0
          omega
        · exfalso
          have heq : counterOf (stepOp (Op.checkIn t now) s) userId = some c := by
            simp only [stepOp, confirmWellBeing, counterOf,
              findUser_updateUserWellBeing_other htu, hu, Option.map_some', huc]
          rw [heq] at hc'
          injection hc' with h0
          omega
    | settingsUpdate t body =>
        exfalso
        by_cases hv : wellBeingSettingsValid body
        · have heq : counterOf (stepOp (Op.settingsUpdate t body) s) userId = some c := by
            by_cases htu : t = userId
            · subst htu
              simp only [stepOp, putWellBeingSettings, hv, if_true, counterOf,
                findUser_updateUserWellBeingSettings_self, hu, Option.map_some']
              exact congrArg some huc
            · simp only [stepOp, putWellBeingSettings, hv, if_true, counterOf,
                findUser_updateUserWellBeingSettings_other htu, hu, Option.map_some', huc]
          rw [heq] at hc'
          injection hc' with h0
          omega
        · have heq : counterOf (stepOp (Op.settingsUpdate t body) s) userId = some c := by
            simpa [stepOp, putWellBeingSettings, hv] using hc
          rw [heq] at hc'
          injection hc' with h0
          omega

/-- C2 witness: a concrete check-in that strictly decreases a concrete
counter, run through the theorem. -/
def c2User : UserDoc :=
  { oid := "u2", id := "u2", email := "two@example.com", mobileNumber := "9000000002"
    passwordHash := some "h2", isActive := true, lastWellBeingCheck := none
    wellBeingCounter := 3, maxWellBeingLimit := 15
    alertFrequency := "daily", customDays := none, alertTime := "09:00"
    enableSMS := true, enableEmail := true, escalationEnabled := true
    accountStatus := "active" }

def c2Store : Store := { emptyStore with users := [c2User] }

theorem wellBeingCounter_nonneg_and_only_checkin_decreases_witness :
    Op.checkIn "u2" 7 = Op.checkIn "u2" 7 ∧ (0 : Int) = 0 := by
  obtain ⟨t, h1, h2⟩ := wellBeingCounter_nonneg_and_only_checkin_decreases.2
    (Op.checkIn "u2" 7) c2Store "u2" 3 0 (by decide) (by decide) (by decide)
  exact ⟨rfl, h2⟩

/-! ## C3: the check-in resets the counter, stamps the clock, is idempotent,
and removes the user from the exceeded list -/

/-- Applying the check-in update twice collapses to the later application. -/
theorem updateUserWellBeing_twice (uid : String) (n1 n2 : Nat) (s : Store) :
    updateUserWellBeing uid n2 (updateUserWellBeing uid n1 s) = updateUserWellBeing uid n2 s := by
  unfold updateUserWellBeing
  dsimp only
  congr 1
  rw [@updateFirst_updateFirst UserDoc (fun x => x.id == uid)
    (fun u => { u with lastWellBeingCheck := some n2, wellBeingCounter := 0 })
    (fun u => { u with lastWellBeingCheck := some n1, wellBeingCounter := 0 })
    (fun _ => rfl) s.users]

/-- C3: for an existing user (unique ids, positive threshold — both hold in
every reachable store), the check-in sets the missed counter to exactly 0,
sets `lastWellBeingCheck` to the supplied current time, collapses under
repetition, and afterwards no user carrying that id appears in
`getUsersWithExceededLimits`. -/
theorem recordCheckIn_resets_idempotent_unflags (s : Store) (uid : String)
    (now now2 : Nat) (u : UserDoc)
    (hfind : findUser uid s = some u)
    (hnd : (s.users.map UserDoc.id).Nodup)
    (hpos : 1 ≤ u.maxWellBeingLimit) :
    counterOf (confirmWellBeing uid now s) uid = some 0
    ∧ lastCheckOf (confirmWellBeing uid now s) uid = some (some now)
    ∧ confirmWellBeing uid now2 (confirmWellBeing uid now s) = confirmWellBeing uid now2 s
    ∧ ∀ v ∈ getUsersWithExceededLimits (confirmWellBeing uid now s), v.id ≠ uid := by
  refine ⟨?_, ?_, ?_, ?_⟩
  · simp only [counterOf, confirmWellBeing, findUser_updateUserWellBeing_self, hfind,
      Option.map_some']
  · simp only [lastCheckOf, confirmWellBeing, findUser_updateUserWellBeing_self, hfind,
      Option.map_some']
  · exact updateUserWellBeing_twice uid now now2 s
  · intro v hv hvid
    have hmem := List.mem_filter.mp hv
    have hmem1 : v ∈ updateFirst (fun x => x.id == uid)
        (fun x => { x with lastWellBeingCheck := some now, wellBeingCounter := 0 })
        s.users := hmem.1
    obtain ⟨y, hy, hvy⟩ := updateFirst_mem_of_id hnd hmem1 hvid
    have hy0 : s.users.find? (fun x => x.id == uid) = some y := hy
    have hyu : y = u := Option.some.inj (hy0.symm.trans hfind)
    rw [hyu] at hvy
    subst hvy
    have hex : u.maxWellBeingLimit ≤ (0 : Int) := by simpa using hmem.2
    omega

/-- The spec's scenario A: counter 15, threshold 15, escalation on. -/
def c3User : UserDoc :=
  { oid := "u3", id := "u3", email := "three@example.com", mobileNumber := "9000000003"
    passwordHash := some "h3", isActive := true, lastWellBeingCheck := none
    wellBeingCounter := 15, maxWellBeingLimit := 15
    alertFrequency := "daily", customDays := none, alertTime := "09:00"
    enableSMS := true, enableEmail := true, escalationEnabled := true
    accountStatus := "active" }

def c3Store : Store := { emptyStore with users := [c3User] }

theorem recordCheckIn_resets_idempotent_unflags_witness :
    c3User ∈ getUsersWithExceededLimits c3Store
    ∧ counterOf (confirmWellBeing "u3" 42 c3Store) "u3" = some 0
    ∧ lastCheckOf (confirmWellBeing "u3" 42 c3Store) "u3" = some (some 42)
    ∧ confirmWellBeing "u3" 43 (confirmWellBeing "u3" 42 c3Store)
        = confirmWellBeing "u3" 43 c3Store
    ∧ getUsersWithExceededLimits (confirmWellBeing "u3" 42 c3Store) = [] := by
  have h := recordCheckIn_resets_idempotent_unflags c3Store "u3" 42 43 c3User
    (by decide) (by decide) (by decide)
  exact ⟨by decide, h.1, h.2.1, h.2.2.1, by decide⟩

/-! ## C4: validation of `customDays` -/

/-- A custom-frequency settings request with `customDays` absent. -/
def c4Body : SettingsRequest :=
  { alertFrequency := "custom", customDays := none, alertTime := "09:00"
    enableSMS := true, enableEmail := true, maxMissedAlerts := 10, escalationEnabled := true }

def c4User : UserDoc :=
  { oid := "u4", id := "u4", email := "four@example.com", mobileNumber := "9000000004"
    passwordHash := some "h4", isActive := true, lastWellBeingCheck := none
    wellBeingCounter := 2, maxWellBeingLimit := 15
    alertFrequency := "daily", customDays := none, alertTime := "09:00"
    enableSMS := true, enableEmail := true, escalationEnabled := true
    accountStatus := "active" }

def c4Store : Store := { emptyStore with users := [c4User] }

/-- C4 counterexample: `alertFrequency = "custom"` with `customDays` missing
passes the zod schema (`customDays` is plain `.optional()` with no
cross-field requirement), so the PUT route accepts the request and persists
the new settings instead of rejecting them. -/
theorem custom_frequency_without_days_is_accepted :
    c4Body.alertFrequency = "custom"
    ∧ c4Body.customDays = none
    ∧ (putWellBeingSettings "u4" c4Body c4Store).1 = PutSettingsResult.ok
    ∧ (findUser "u4" (putWellBeingSettings "u4" c4Body c4Store).2).map
        (fun u => u.alertFrequency) = some "custom" := by
  refine ⟨rfl, rfl, ?_, ?_⟩ <;> decide

/-- C4 (amended): a settings update whose `customDays` is present but
outside [1,30] is rejected and leaves the store unchanged; a request with
`alertFrequency = "custom"` and `customDays` missing is accepted. -/
theorem out_of_range_customDays_rejected (userId : String) (body : SettingsRequest)
    (s : Store) (d : Int) (hd : body.customDays = some d) (hrange : d < 1 ∨ 30 < d) :
    putWellBeingSettings userId body s = (PutSettingsResult.badRequest, s) := by
  have hval : wellBeingSettingsValid body = false := by
    cases hrange with
    | inl h =>
        have hd1 : (decide (1 ≤ d)) = false := by simp; omega
        simp [wellBeingSettingsValid, hd, hd1]
    | inr h =>
        have hd2 : (decide (d ≤ 30)) = false := by simp; omega
        simp [wellBeingSettingsValid, hd, hd2]
  simp [putWellBeingSettings, hval]

/-- A settings request with `customDays = 31`. -/
def c4wBody : SettingsRequest :=
  { alertFrequency := "custom", customDays := some 31, alertTime := "09:00"
    enableSMS := true, enableEmail := true, maxMissedAlerts := 10, escalationEnabled := true }

theorem out_of_range_customDays_rejected_witness :
    putWellBeingSettings "u4" c4wBody c4Store = (PutSettingsResult.badRequest, c4Store) :=
  out_of_range_customDays_rejected "u4" c4wBody c4Store 31 (by decide) (Or.inr (by decide))

/-! ## C5: settings round-trip keeps the threshold and the counter -/

/-- C5: for an existing user and a valid settings body carrying
`maxMissedAlerts = v`, updating and then reading the settings back yields
`maxMissedAlerts = v`, and the missed counter is unchanged by the update. -/
theorem settings_roundtrip (s : Store) (uid : String) (body : SettingsRequest) (v : Int)
    (u : UserDoc) (hfind : findUser uid s = some u)
    (hvalid : wellBeingSettingsValid body = true)
    (hv : body.maxMissedAlerts = v) :
    (getWellBeingSettings uid (putWellBeingSettings uid body s).2).map
        (fun view => view.maxMissedAlerts) = some v
    ∧ counterOf (putWellBeingSettings uid body s).2 uid = counterOf s uid := by
  have hpos : 1 ≤ v := by
    rw [← hv]
    simp only [wellBeingSettingsValid, Bool.and_eq_true, decide_eq_true_eq] at hvalid
    exact hvalid.2.1
  have hvne : (v == 0) = false := by
    simp only [beq_eq_false_iff_ne, ne_eq]
    omega
  constructor
  · simp only [putWellBeingSettings, hvalid, if_true, getWellBeingSettings,
      findUser_updateUserWellBeingSettings_self, hfind, Option.map_some',
      applySettings, jsOrNum, hv, hvne]
    simp
  · simp only [putWellBeingSettings, hvalid, if_true, counterOf,
      findUser_updateUserWellBeingSettings_self, hfind, Option.map_some']
    rfl

def c5User : UserDoc :=
  { oid := "u5", id := "u5", email := "five@example.com", mobileNumber := "9000000005"
    passwordHash := some "h5", isActive := true, lastWellBeingCheck := none
    wellBeingCounter := 4, maxWellBeingLimit := 15
    alertFrequency := "daily", customDays := none, alertTime := "09:00"
    enableSMS := true, enableEmail := true, escalationEnabled := true
    accountStatus := "active" }

def c5Store : Store := { emptyStore with users := [c5User] }

/-- The spec's round-trip body: `maxMissedAlerts = 5`. -/
def c5Body : SettingsRequest :=
  { alertFrequency := "weekly", customDays := none, alertTime := "10:30"
    enableSMS := true, enableEmail := false, maxMissedAlerts := 5, escalationEnabled := true }

theorem settings_roundtrip_witness :
    (getWellBeingSettings "u5" (putWellBeingSettings "u5" c5Body c5Store).2).map
        (fun view => view.maxMissedAlerts) = some 5
    ∧ counterOf (putWellBeingSettings "u5" c5Body c5Store).2 "u5" = counterOf c5Store "u5" :=
  settings_roundtrip c5Store "u5" c5Body 5 c5User (by decide) (by decide) (by decide)

/-! ## C6: registration rejects duplicate mobile numbers and emails -/

/-- C6: a valid step-1 request whose mobile number belongs to an existing
user is rejected with the mobile-already-registered error and changes
nothing; a valid step-2 request whose email belongs to an existing user is
rejected before any write (with the email-already-registered error when its
correlation entry exists, with the step-1-missing error otherwise) — in
either case the state is returned unchanged.  Neither hypothesis constrains
the other contact field. -/
theorem registration_rejects_duplicates (st : ServerState) (d1 : Step1Data) (now : Nat)
    (tempId : String) (d2 : Step2Data) (freshId : String) (now2 : Nat) :
    (step1Valid d1 = true → (∃ u ∈ st.store.users, u.mobileNumber = d1.mobileNumber) →
      registerStep1 d1 now st = (RegResponse.mobileAlreadyRegistered, st))
    ∧ (step2Valid d2 = true → (∃ u ∈ st.store.users, u.email = d2.email) →
      registerStep2 tempId d2 freshId now2 st = (RegResponse.emailAlreadyRegistered, st)
      ∨ registerStep2 tempId d2 freshId now2 st = (RegResponse.step1MissingOrExpired, st)) := by
  constructor
  · rintro hval ⟨u, hu, hm⟩
    have hany : st.store.users.any (fun x => x.mobileNumber == d1.mobileNumber) = true := by
      rw [List.any_eq_true]
      exact ⟨u, hu, by simp [hm]⟩
    simp [registerStep1, hval, hany]
  · rintro hval ⟨u, hu, he⟩
    have hany : st.store.users.any (fun x => x.email == d2.email) = true := by
      rw [List.any_eq_true]
      exact ⟨u, hu, by simp [he]⟩
    cases hlk : lookupTemp tempId st with
    | none =>
        right
        simp [registerStep2, hval, hlk]
    | some s1 =>
        left
        simp [registerStep2, hval, hlk, hany]

def c6User : UserDoc :=
  { oid := "u6", id := "u6", email := "dup@example.com", mobileNumber := "9123456789"
    passwordHash := some "h6", isActive := true, lastWellBeingCheck := none
    wellBeingCounter := 0, maxWellBeingLimit := 15
    alertFrequency := "daily", customDays := none, alertTime := "09:00"
    enableSMS := true, enableEmail := true, escalationEnabled := true
    accountStatus := "active" }

def c6State : ServerState :=
  { store := { emptyStore with users := [c6User] }, registrationTempData := [] }

/-- A step-1 body reusing the stored mobile number (all other fields new). -/
def c6Step1 : Step1Data :=
  { fullName := "Jane Doe", dateOfBirth := "1990-01-01", mobileNumber := "9123456789"
    countryCode := "+91", address := "42 Some Street" }

/-- A step-2 body reusing the stored email. -/
def c6Step2 : Step2Data := { email := "dup@example.com", password := "password123" }

theorem registration_rejects_duplicates_witness :
    registerStep1 c6Step1 0 c6State = (RegResponse.mobileAlreadyRegistered, c6State)
    ∧ (registerStep2 "t6" c6Step2 "fresh6" 0 c6State
        = (RegResponse.emailAlreadyRegistered, c6State)
      ∨ registerStep2 "t6" c6Step2 "fresh6" 0 c6State
        = (RegResponse.step1MissingOrExpired, c6State)) :=
  ⟨(registration_rejects_duplicates c6State c6Step1 0 "t6" c6Step2 "fresh6" 0).1
      (by decide) ⟨c6User, by decide, by decide⟩,
    (registration_rejects_duplicates c6State c6Step1 0 "t6" c6Step2 "fresh6" 0).2
      (by decide) ⟨c6User, by decide, by decide⟩⟩

/-! ## C7: the platform-admin pseudo-account stays out of every per-user
collection -/

/-- C7: in any state where no stored user document carries the reserved id
`"admin"` (the pseudo-account is virtual — login fabricates it without a
store write, and created users get generated ids), the exceeded-limits
report contains no admin entry; and the per-user collection queries issued
for `"admin"` return empty results for every state whatsoever — including
states whose rows do mention `"admin"` — because the handlers short-circuit
before consulting the store. -/
theorem admin_pseudo_account_excluded (s : MState)
    (hadm : ∀ u ∈ s.users, ¬ u.oid = "admin") :
    (∀ u ∈ MongoStorage.getUsersWithExceededLimits s, ¬ u.oid = "admin")
    ∧ MongoStorage.getNomineesByUserId "admin" s = []
    ∧ MongoStorage.getAssetsByUserId "admin" s = []
    ∧ MongoStorage.getUserMoodEntries "admin" s = []
    ∧ MongoStorage.getWellBeingAlerts (some "admin") s = [] := by
  refine ⟨?_, rfl, rfl, rfl, rfl⟩
  intro u hu
  exact hadm u (List.mem_filter.mp hu).1

def c7User : MUser :=
  { oid := "u7", fullName := "Seven Person", email := "seven@example.com"
    mobileNumber := "9000000007" }

/-- An alert row that makes `u7` exceeded, plus rows that mention `"admin"`
directly — the short-circuits must ignore them. -/
def c7State : MState :=
  { users := [c7User]
    alerts := [{ userId := "u7", alertFrequency := "daily", customDays := none
                 alertTime := "09:00", enableSMS := true, enableEmail := true
                 maxMissedAlerts := 15, escalationEnabled := true
                 currentCount := 20, isActive := true },
               { userId := "admin", alertFrequency := "daily", customDays := none
                 alertTime := "09:00", enableSMS := true, enableEmail := true
                 maxMissedAlerts := 1, escalationEnabled := true
                 currentCount := 5, isActive := true }]
    nominees := [{ oid := "n7", userId := "admin", fullName := "Stray Row" }]
    assets := [{ oid := "as7", userId := "admin", title := "Stray Asset" }]
    moodEntries := [{ oid := "m7", userId := "admin", mood := "calm", createdAt := 1 }] }

theorem admin_pseudo_account_excluded_witness :
    MongoStorage.getUsersWithExceededLimits c7State = [c7User]
    ∧ ¬ c7User.oid = "admin"
    ∧ MongoStorage.getNomineesByUserId "admin" c7State = []
    ∧ MongoStorage.getAssetsByUserId "admin" c7State = []
    ∧ MongoStorage.getUserMoodEntries "admin" c7State = []
    ∧ MongoStorage.getWellBeingAlerts (some "admin") c7State = [] := by
  have h := admin_pseudo_account_excluded c7State (by decide)
  exact ⟨by decide, h.1 c7User (by decide), h.2.1, h.2.2.1, h.2.2.2.1, h.2.2.2.2⟩

/-! ## C8: the registration correlation entry never expires -/

def c8State : ServerState := { store := emptyStore, registrationTempData := [] }

def c8Step1 : Step1Data :=
  { fullName := "John Roe", dateOfBirth := "1991-02-03", mobileNumber := "9888877776"
    countryCode := "+91", address := "7 Long Road West" }

def c8Step2 : Step2Data := { email := "john@example.com", password := "password123" }

/-- The state right after a successful step 1 performed at time 0. -/
def c8AfterStep1 : ServerState := (registerStep1 c8Step1 0 c8State).2

/-- The temp id step 1 issues at time 0. -/
def c8TempId : String := "9888877776_0"

/-- Ten years in milliseconds — far past any plausible short lifetime. -/
def tenYearsMs : Nat := 10 * 365 * 24 * 60 * 60 * 1000

/-- C8 counterexample: the correlation entry stored by step 1 at time 0 is
still present and accepted by step 2 ten years later — the attempt succeeds
and creates the user, so no elapsed time invalidates a stored token
(`registrationTempData` entries carry no expiry and no sweep removes
them). -/
theorem stale_registration_token_still_accepted :
    lookupTemp c8TempId c8AfterStep1 = some c8Step1
    ∧ (registerStep2 c8TempId c8Step2 "fresh8" tenYearsMs c8AfterStep1).1
        = RegResponse.registered "fresh8"
    ∧ (findUser "fresh8"
        (registerStep2 c8TempId c8Step2 "fresh8" tenYearsMs c8AfterStep1).2.store).isSome
        = true := by
  refine ⟨by decide, by decide, by decide⟩

/-- C8 (amended): the in-memory correlation entry is not time-bounded — the
outcome of a step-2 attempt is independent of the wall clock; a token absent
from the map (never issued, or already consumed by a successful step 2) is
rejected with the step-1-missing error and creates no user, the state being
returned unchanged. -/
theorem step2_time_independent_and_absent_token_rejected
    (st : ServerState) (tempId : String) (d2 : Step2Data) (freshId : String) (t1 t2 : Nat) :
    registerStep2 tempId d2 freshId t1 st = registerStep2 tempId d2 freshId t2 st
    ∧ (lookupTemp tempId st = none → step2Valid d2 = true →
        registerStep2 tempId d2 freshId t1 st = (RegResponse.step1MissingOrExpired, st)) := by
  constructor
  · rfl
  · intro hlk hval
    simp [registerStep2, hval, hlk]

theorem step2_time_independent_and_absent_token_rejected_witness :
    registerStep2 "nobody_0" c8Step2 "fresh8b" 5 c8State
      = (RegResponse.step1MissingOrExpired, c8State) :=
  (step2_time_independent_and_absent_token_rejected c8State "nobody_0" c8Step2 "fresh8b" 5 6).2
    (by decide) (by decide)

/-! ## C9: the check-in does not touch the alert collection -/

def c9Alert : AlertDoc :=
  { oid := "a9", userId := "u9", alertType := "missed_checkin"
    message := "well-being limit exceeded", isResolved := false, resolvedAt := none }

def c9User : UserDoc :=
  { oid := "u9", id := "u9", email := "nine@example.com", mobileNumber := "9000000009"
    passwordHash := some "h9", isActive := true, lastWellBeingCheck := none
    wellBeingCounter := 20, maxWellBeingLimit := 15
    alertFrequency := "daily", customDays := none, alertTime := "09:00"
    enableSMS := true, enableEmail := true, escalationEnabled := true
    accountStatus := "active" }

def c9Store : Store := { emptyStore with users := [c9User], alerts := [c9Alert] }

/-- C9 counterexample: after the check-in the user's open alert is still
stored and still unresolved — the confirm route performs only the user
update, never `resolveWellBeingAlert`, refuting the claimed reset of open
alert records. -/
theorem checkin_leaves_open_alert_unresolved :
    c9Alert.isResolved = false
    ∧ (confirmWellBeing "u9" 100 c9Store).alerts = [c9Alert]
    ∧ counterOf (confirmWellBeing "u9" 100 c9Store) "u9" = some 0 := by
  refine ⟨rfl, by decide, by decide⟩

/-- C9 (amended): the check-in zeroes the resolved user's counter and stamps
`lastWellBeingCheck` but leaves the alert collection — and every other
collection — exactly as it was; `resolveWellBeingAlert` exists as a separate
operation that the check-in path never invokes. -/
theorem checkin_updates_only_user_documents (uid : String) (now : Nat) (s : Store) :
    (confirmWellBeing uid now s).alerts = s.alerts
    ∧ (confirmWellBeing uid now s).nominees = s.nominees
    ∧ (confirmWellBeing uid now s).assets = s.assets
    ∧ (confirmWellBeing uid now s).moodEntries = s.moodEntries
    ∧ counterOf (confirmWellBeing uid now s) uid = (counterOf s uid).map (fun _ => 0)
    ∧ lastCheckOf (confirmWellBeing uid now s) uid
        = (lastCheckOf s uid).map (fun _ => some now) := by
  refine ⟨rfl, rfl, rfl, rfl, ?_, ?_⟩
  · simp only [counterOf, confirmWellBeing, findUser_updateUserWellBeing_self,
      Option.map_map]
    rfl
  · simp only [lastCheckOf, confirmWellBeing, findUser_updateUserWellBeing_self,
      Option.map_map]
    rfl

/-! ## C10: reads for an unknown user id return empty results -/

/-- C10: when no stored user carries the requested id, `getUserNominees`,
`getUserAssets` and `getUserMoodEntries` return the empty list and
`getLatestMoodEntry` returns nothing — no error is raised and the store
comes back unchanged. -/
theorem unknown_user_reads_return_empty (s : Store) (uid : String)
    (h : findUser uid s = none) :
    getUserNominees uid s = ([], s)
    ∧ getUserAssets uid s = ([], s)
    ∧ getUserMoodEntries uid s = ([], s)
    ∧ getLatestMoodEntry uid s = (none, s) := by
  refine ⟨?_, ?_, ?_, ?_⟩ <;>
    simp [getUserNominees, getUserAssets, getUserMoodEntries, getLatestMoodEntry, h]

def c10User : UserDoc :=
  { oid := "oid10", id := "u10", email := "ten@example.com", mobileNumber := "9000000010"
    passwordHash := some "h10", isActive := true, lastWellBeingCheck := none
    wellBeingCounter := 1, maxWellBeingLimit := 15
    alertFrequency := "daily", customDays := none, alertTime := "09:00"
    enableSMS := true, enableEmail := true, escalationEnabled := true
    accountStatus := "active" }

/-- A store with data for `u10` only; `"ghost"` matches no user. -/
def c10Store : Store :=
  { emptyStore with
      users := [c10User]
      nominees := [{ oid := "n10", userId := "oid10", fullName := "Nom Ten"
                     relationship := "sibling", mobileNumber := "9000000011"
                     email := none, isVerified := false }]
      assets := [{ oid := "as10", userId := "oid10", assetType := "bank_account"
                   title := "Savings", value := some "100" }]
      moodEntries := [{ oid := "m10", userId := "oid10", mood := "happy"
                        intensity := 8, createdAt := 3 }] }

theorem unknown_user_reads_return_empty_witness :
    getUserNominees "ghost" c10Store = ([], c10Store)
    ∧ getUserAssets "ghost" c10Store = ([], c10Store)
    ∧ getUserMoodEntries "ghost" c10Store = ([], c10Store)
    ∧ getLatestMoodEntry "ghost" c10Store = (none, c10Store) :=
  unknown_user_reads_return_empty c10Store "ghost" (by decide)

end SecureVault
